import Mathlib

set_option maxRecDepth 4000

/-!
Shallow embedding of the coding-assistant agent repository: the file-system
tools and permitted-path check of `src/main.py`, and the JSON-RPC server of
`neovim-plugin/python/lagos_rpc_server.py`. Python exceptions are modelled
with `Except`/`Option`; Python truthiness of strings and optionals is made
explicit at each use site.
-/

/-! ## Paths and the permitted-path check (`main.py`) -/

/-- A POSIX path as written by the caller: `absolute` when it starts with a
slash, plus its slash-separated components (which may contain `"."`, `".."`
or `""`). -/
structure PyPath where
  absolute : Bool
  comps : List String
  deriving DecidableEq

/-- POSIX resolution of components against an absolute starting point,
as `pathlib.Path.resolve` performs it (symbolic links aside): `.` and empty
components vanish, `..` removes the last component. -/
def resolveComps : List String → List String → List String
  | acc, [] => acc
  | acc, c :: rest =>
    if c = "" ∨ c = "." then resolveComps acc rest
    else if c = ".." then resolveComps acc.dropLast rest
    else resolveComps (acc ++ [c]) rest

/-- `Path(path).resolve()` with the given current working directory: an
absolute path resolves from the root, a relative one from `cwd`. -/
def resolvePath (cwd : List String) (p : PyPath) : List String :=
  resolveComps (if p.absolute then [] else cwd) p.comps

/-- The `str()` rendering of a resolved absolute path. -/
def strOfAbs (comps : List String) : String :=
  "/" ++ String.intercalate "/" comps

/-- Python `s.startswith(b)`: the characters of `b` begin the characters of
`s`. -/
def startsWith (b s : String) : Bool :=
  b.data.isPrefixOf s.data

/-- `is_path_permitted` from `main.py`: resolve the path and test
`str(target).startswith(str(base))` where `base` is the resolved current
working directory. `none` models the raised `PermissionError`; `some target`
models the returned resolved path. -/
def is_path_permitted (cwd : List String) (path : PyPath) : Option (List String) :=
  let base := cwd
  let target := resolvePath cwd path
  if startsWith (strOfAbs base) (strOfAbs target) then some target else none

/-- The notion the spec confines tools by: the resolved target lies inside the
project-root tree, i.e. the roots components are a componentwise prefix of the
targets. -/
def insideRoot (cwd target : List String) : Bool :=
  cwd.isPrefixOf target

/-! ## The tool bodies and the `tool_ui` wrapper (`main.py`) -/

/-- A tool body return value in Python: either a `(msg, payload)` pair or a
bare string (the edit tools). Payloads in this program are lists of strings. -/
inductive ToolRet where
  | tup : String → List String → ToolRet
  | str : String → ToolRet
  deriving DecidableEq

/-- What the `tool_ui` wrapper hands back to its caller: a structured payload
taken from a pair, or a string (an unpacked character or an error message). -/
inductive ToolCallResult where
  | payload : List String → ToolCallResult
  | text : String → ToolCallResult
  deriving DecidableEq

/-- The two-target unpacking `msg, result = v` of Python: a pair unpacks into
its components; a string is an iterable of characters, so only a
two-character string unpacks (into its two characters) and any other length
raises `ValueError` with the messages shown. -/
def unpackTwo : ToolRet → Except String (String × ToolCallResult)
  | .tup m p => .ok (m, .payload p)
  | .str s =>
    match s.data with
    | [a, b] => .ok (a.toString, .text b.toString)
    | l =>
      if l.length < 2 then
        .error ("not enough values to unpack (expected 2, got " ++ toString l.length ++ ")")
      else
        .error "too many values to unpack (expected 2)"

/-- The `tool_ui` wrapper applied to one already-made call of the wrapped
function; `ret` is that calls outcome, with `Except.error` modelling a raised
exception. The wrapper performs `msg, result = func(...)` inside its `try`
and on any exception returns the error text as the result instead. -/
def tool_ui (ret : Except String ToolRet) : ToolCallResult :=
  match ret with
  | .error err => .text ("tool call failed with error: " ++ err)
  | .ok v =>
    match unpackTwo v with
    | .ok (_, r) => r
    | .error err => .text ("tool call failed with error: " ++ err)

/-- The line count reported by `read_file`:
`result.count("\n") + 1 if result.strip() else 0`. The Python `result.strip()`
is falsy exactly when every character of `result` is whitespace. -/
def numLines (content : String) : Nat :=
  if content.data.all (fun c => c.isWhitespace) then 0
  else content.data.count '\n' + 1

/-- The `read_file` tool body from `main.py`. `fs` is the file system, giving
the text of each file by resolved path; `Except.error` models a raised
exception (the `PermissionError` of the check, or `read_text` failing). -/
def read_file (fs : List String → Option String) (cwd : List String)
    (path : PyPath) : Except String ToolRet :=
  match is_path_permitted cwd path with
  | none => .error "error: path escapes project directory"
  | some target =>
    match fs target with
    | none => .error "No such file or directory"
    | some content =>
      .ok (.tup ("Read " ++ toString (numLines content) ++ " lines") [content])

/-- The `list_files` tool body from `main.py`. `dirs` is the `os.listdir`
oracle, giving the entries of each directory by resolved path. -/
def list_files (dirs : List String → Option (List String)) (cwd : List String)
    (path : PyPath) : Except String ToolRet :=
  match is_path_permitted cwd path with
  | none => .error "error: path escapes project directory"
  | some target =>
    match dirs target with
    | none => .error "No such file or directory"
    | some entries => .ok (.tup ("Listed " ++ toString entries.length) entries)

/-- The instruction text `edit_file` builds. -/
def editFileText (path instructions : String) : String :=
  "To edit the file \x27" ++ path ++ "\x27, follow these instructions:\n" ++
    instructions ++
    "\n\nNote: I cannot directly edit the file. You need to manually make these changes."

/-- The `edit_file` tool body from `main.py`: it returns only a string, not a
`(msg, payload)` pair, and never raises. -/
def edit_file (path instructions : String) : Except String ToolRet :=
  .ok (.str (editFileText path instructions))

/-! ## Conversation data (`google.genai.types` as used by this program) -/

/-- A structured function-call request inside a response part. -/
structure FunctionCall where
  name : String
  args : List (String × String)
  deriving DecidableEq

/-- One segment of a turn. The empty `text` models both Python `None` and
`""`, which the handlers treat alike (both falsy). -/
structure MsgPart where
  text : String
  function_call : Option FunctionCall
  deriving DecidableEq

/-- One conversation turn: a role (`"user"` or `"model"`) and its parts. -/
structure Content where
  role : String
  parts : List MsgPart
  deriving DecidableEq

/-- One candidate of a model response. -/
structure Candidate where
  content : Content
  deriving DecidableEq

/-- A model response: its list of candidates. -/
structure GenResponse where
  candidates : List Candidate
  deriving DecidableEq

/-- The model endpoint (`client.models.generate_content`) as an oracle: from
the history sent, either a response or a raised exception carrying `str(e)`. -/
abbrev GenFun := List Content → Except String GenResponse

/-! ## The RPC server state and messages (`lagos_rpc_server.py`) -/

/-- The buffer descriptor stored by `set_context`; the chat handler reads its
`name` entry. -/
structure Buffer where
  name : String
  deriving DecidableEq

/-- The fields of a request `params` mapping that the handlers read; `none`
models an absent key. -/
structure Params where
  message : Option String := none
  code : Option String := none
  language : Option String := none
  error : Option String := none
  instruction : Option String := none
  buffer : Option Buffer := none
  selection : Option String := none
  deriving DecidableEq

/-- Server state: the agents conversation history plus the stored editor
context (`current_buffer`, `visual_selection`). -/
structure ServerState where
  history : List Content
  current_buffer : Option Buffer
  visual_selection : Option String
  deriving DecidableEq

/-- A decoded request: `method`, `params` and `id`, with `none` for an absent
key. For `id`, `request.get("id")` turns an absent key into Python `None`,
emitted as JSON `null`; the identifier type is opaque and only echoed. -/
structure Request (ι : Type) where
  method : Option String
  params : Option Params
  id : Option ι

/-- The result payloads the handlers produce. `chatResult r tc` stands for the
dict with keys `response`, `type` (always `"text"`) and `tool_calls`;
`noResponse` for the dict with `response` set to `"No response from AI"` and
`type` set to `"text"` and no `tool_calls` key; `statusOk` for the dict with
`status` set to `"ok"`; `historyResult` for the dict with key `history`
holding role/text pairs. -/
inductive RpcResult where
  | chatResult (response : String) (tool_calls : List FunctionCall)
  | noResponse
  | statusOk
  | historyResult (entries : List (String × String))
  deriving DecidableEq

/-- A response object: the echoed identifier plus either a result payload or
an error object (code and message). -/
inductive RpcResponse (ι : Type) where
  | result : Option ι → RpcResult → RpcResponse ι
  | error : Option ι → Int → String → RpcResponse ι

/-- The identifier a response carries. -/
def respId {ι : Type} : RpcResponse ι → Option ι
  | .result i _ => i
  | .error i _ _ => i

/-! ## The request handlers (`lagos_rpc_server.py`) -/

/-- The context prefixing of `_handle_chat`: a stored buffer descriptor and a
stored selection are prepended to the message. Python truthiness: a `None`
buffer adds nothing, and a `None` or empty selection adds nothing. -/
def contextMessage (st : ServerState) (message : String) : String :=
  let m1 :=
    match st.current_buffer with
    | some b => "[Current buffer: " ++ b.name ++ "]\n" ++ message
    | none => message
  match st.visual_selection with
  | some s => if s = "" then m1 else "[Selected text:\n" ++ s ++ "\n]\n" ++ m1
  | none => m1

/-- A user turn as `_handle_chat` appends it. -/
def userContent (message : String) : Content :=
  ⟨"user", [⟨message, none⟩]⟩

/-- A model turn as `_handle_chat` appends it. -/
def modelContent (text : String) : Content :=
  ⟨"model", [⟨text, none⟩]⟩

/-- The response-parts loop of `_handle_chat`: concatenate the texts of parts
with non-empty text, and collect the function calls of the other parts that
carry one. -/
def extractLoop : String → List FunctionCall → List MsgPart → String × List FunctionCall
  | acc, calls, [] => (acc, calls)
  | acc, calls, p :: rest =>
    if p.text ≠ "" then extractLoop (acc ++ p.text) calls rest
    else
      match p.function_call with
      | some fc => extractLoop acc (calls ++ [fc]) rest
      | none => extractLoop acc calls rest

/-- The text and tool calls extracted from the first candidates parts. -/
def extractParts (parts : List MsgPart) : String × List FunctionCall :=
  extractLoop "" [] parts

/-- `_handle_chat`: reject an absent or empty message with the invalid-params
error, prefix the stored context, append the user turn, call the model, and
only on a successful call with at least one candidate append a model turn.
Returns the response together with the new server state. -/
def handle_chat {ι : Type} (gen : GenFun) (st : ServerState) (p : Params)
    (rid : Option ι) : RpcResponse ι × ServerState :=
  let message := p.message.getD ""
  if message = "" then
    (.error rid (-32602) "Message is required", st)
  else
    let message := contextMessage st message
    let st1 := { st with history := st.history ++ [userContent message] }
    match gen st1.history with
    | .error e => (.error rid (-32603) e, st1)
    | .ok resp =>
      match resp.candidates with
      | [] => (.result rid .noResponse, st1)
      | c :: _ =>
        let pr := extractParts c.content.parts
        (.result rid (.chatResult pr.1 pr.2),
          { st1 with history := st1.history ++ [modelContent pr.1] })

/-- `_handle_ask`: delegates to `_handle_chat` unchanged. -/
def handle_ask {ι : Type} (gen : GenFun) (st : ServerState) (p : Params)
    (rid : Option ι) : RpcResponse ι × ServerState :=
  handle_chat gen st p rid

/-- `_handle_explain`: synthesize the templated message and chat with a fresh
params mapping holding only that message. -/
def handle_explain {ι : Type} (gen : GenFun) (st : ServerState) (p : Params)
    (rid : Option ι) : RpcResponse ι × ServerState :=
  let code := p.code.getD ""
  let language := p.language.getD "unknown"
  let message := "Please explain this " ++ language ++ " code:\n\n" ++ code
  handle_chat gen st { message := some message } rid

/-- `_handle_fix`: synthesize the templated message (mentioning the error only
when one was supplied and non-empty) and chat. -/
def handle_fix {ι : Type} (gen : GenFun) (st : ServerState) (p : Params)
    (rid : Option ι) : RpcResponse ι × ServerState :=
  let code := p.code.getD ""
  let err := p.error.getD ""
  let language := p.language.getD "unknown"
  let message :=
    "Please fix this " ++ language ++ " code" ++
      (if err = "" then "" else " that has this error: " ++ err) ++
      ":\n\n" ++ code
  handle_chat gen st { message := some message } rid

/-- `_handle_refactor`: synthesize the templated message and chat. -/
def handle_refactor {ι : Type} (gen : GenFun) (st : ServerState) (p : Params)
    (rid : Option ι) : RpcResponse ι × ServerState :=
  let code := p.code.getD ""
  let instruction := p.instruction.getD "refactor this code"
  let language := p.language.getD "unknown"
  let message :=
    "Please refactor this " ++ language ++ " code to " ++ instruction ++ ":\n\n" ++ code
  handle_chat gen st { message := some message } rid

/-- `_handle_set_context`: replace both stored context fields (an absent key
stores `None`) and acknowledge. -/
def handle_set_context {ι : Type} (st : ServerState) (p : Params)
    (rid : Option ι) : RpcResponse ι × ServerState :=
  (.result rid .statusOk,
    { st with current_buffer := p.buffer, visual_selection := p.selection })

/-- The text `_handle_get_history` reports for one turn: the concatenation of
the non-empty texts of its parts. -/
def contentText (c : Content) : String :=
  String.join (c.parts.filterMap fun p => if p.text = "" then none else some p.text)

/-- `_handle_get_history`: flatten each turn to a role/text pair. -/
def handle_get_history {ι : Type} (st : ServerState) (rid : Option ι) :
    RpcResponse ι × ServerState :=
  (.result rid (.historyResult (st.history.map fun c => (c.role, contentText c))), st)

/-- `_handle_clear_history`: empty the history and acknowledge. -/
def handle_clear_history {ι : Type} (st : ServerState) (rid : Option ι) :
    RpcResponse ι × ServerState :=
  (.result rid .statusOk, { st with history := [] })

/-- The method name shown in the method-not-found message; Python formats a
missing method as `None`. -/
def methodName : Option String → String
  | some m => m
  | none => "None"

/-- `handle_request`: route by method name, defaulting `params` to an empty
mapping; an unknown (or missing) method gets the method-not-found error. -/
def handle_request {ι : Type} (gen : GenFun) (st : ServerState)
    (req : Request ι) : RpcResponse ι × ServerState :=
  let params := req.params.getD {}
  let rid := req.id
  if req.method = some "chat" then handle_chat gen st params rid
  else if req.method = some "ask" then handle_ask gen st params rid
  else if req.method = some "explain" then handle_explain gen st params rid
  else if req.method = some "fix" then handle_fix gen st params rid
  else if req.method = some "refactor" then handle_refactor gen st params rid
  else if req.method = some "set_context" then handle_set_context st params rid
  else if req.method = some "get_history" then handle_get_history st rid
  else if req.method = some "clear_history" then handle_clear_history st rid
  else (.error rid (-32601) ("Method not found: " ++ methodName req.method), st)

/-! ## Shared concrete instances for witnesses and counterexamples -/

/-- A model endpoint that always answers with the single text `"ok"`. -/
def genOk : GenFun := fun _ => .ok ⟨[⟨⟨"model", [⟨"ok", none⟩]⟩⟩]⟩

/-- A model endpoint whose call always raises. -/
def genBoom : GenFun := fun _ => .error "boom"

/-- A fresh server state: empty history, no stored context. -/
def initState : ServerState := ⟨[], none, none⟩

/-- The number of turns of a history carrying the given role. -/
def countRole (role : String) (h : List Content) : Nat :=
  (h.filter fun c => c.role = role).length

/-! ## Claims -/

/-- C1: the claim fails on the code. With project root `/a/b`, the traversal
path `../bc` resolves to `/a/bc`, which lies outside the project-root tree;
yet `is_path_permitted` accepts it, because the `startswith` string test sees
the text `/a/b` as a prefix of the text `/a/bc`, and `read_file` then reads
the file instead of raising the permission error. -/
theorem c1_escaping_path_is_read :
    insideRoot ["a", "b"] (resolvePath ["a", "b"] ⟨false, ["..", "bc"]⟩) = false ∧
    is_path_permitted ["a", "b"] ⟨false, ["..", "bc"]⟩ = some ["a", "bc"] ∧
    read_file (fun t => if t = ["a", "bc"] then some "secret" else none)
      ["a", "b"] ⟨false, ["..", "bc"]⟩ = .ok (.tup "Read 1 lines" ["secret"]) := by
  refine ⟨rfl, rfl, rfl⟩

/-- C2: the claim fails on the code for the edit tool. Invoking the wrapped
`edit_file` makes the wrapper unpack the returned bare string as
`msg, result`, which raises `ValueError`; the wrapper catches it and hands
back the error text, not the instruction string unchanged. -/
theorem c2_edit_tool_string_mangled :
    tool_ui (edit_file "notes.txt" "add a title") =
      .text "tool call failed with error: too many values to unpack (expected 2)" ∧
    tool_ui (edit_file "notes.txt" "add a title") ≠
      .text (editFileText "notes.txt" "add a title") := by
  exact ⟨rfl, by decide⟩

/-- C3: the claim fails on the code. After one `set_context` storing the
buffer `b.txt`, both the next chat and the one after it (with no intervening
`set_context` call) get the stored context injected as a message prefix: the
stored context is never cleared after being read, so the second chat does not
carry a plain message as the claim requires. -/
theorem c3_context_not_consumed :
    ((handle_request genOk
        ((handle_request genOk
          ((handle_request genOk initState
            ⟨some "set_context", some { buffer := some ⟨"b.txt"⟩ }, some 0⟩).2)
          ⟨some "chat", some { message := some "one" }, some 1⟩).2)
        ⟨some "chat", some { message := some "two" }, some 2⟩).2).history.map contentText
      = ["[Current buffer: b.txt]\none", "ok", "[Current buffer: b.txt]\ntwo", "ok"] ∧
    "[Current buffer: b.txt]\ntwo" ≠ "two" := by
  exact ⟨rfl, by decide⟩

/-- C3 (amended): the stored context is injected as a prefix into the next
chat message and into every later one, persisting unchanged across chat
requests until another `set_context` replaces it: a chat with a non-empty
message appends a user turn carrying the context-prefixed text and leaves
both stored context fields exactly as they were. -/
theorem c3_context_prefix_persists {ι : Type} (gen : GenFun) (st : ServerState)
    (p : Params) (rid : Option ι) (m : String)
    (hm : p.message = some m) (hne : m ≠ "") :
    (handle_chat gen st p rid).2.current_buffer = st.current_buffer ∧
    (handle_chat gen st p rid).2.visual_selection = st.visual_selection ∧
    ∃ rest, (handle_chat gen st p rid).2.history
        = st.history ++ userContent (contextMessage st m) :: rest := by
  unfold handle_chat
  rw [hm]
  simp only [Option.getD_some, if_neg hne]
  cases hg : gen (st.history ++ [userContent (contextMessage st m)]) with
  | error e => exact ⟨rfl, rfl, [], by simp⟩
  | ok resp =>
    obtain ⟨cands⟩ := resp
    cases cands with
    | nil => exact ⟨rfl, rfl, [], by simp⟩
    | cons c cs =>
        exact ⟨rfl, rfl, [modelContent (extractParts c.content.parts).1], by simp⟩

/-- Witness for the amended C3 at a concrete state. -/
theorem c3_context_prefix_persists_witness :
    (handle_chat (ι := Nat) genOk ⟨[], some ⟨"b.txt"⟩, none⟩
        { message := some "hi" } (some 1)).2.current_buffer = some ⟨"b.txt"⟩ ∧
    (handle_chat (ι := Nat) genOk ⟨[], some ⟨"b.txt"⟩, none⟩
        { message := some "hi" } (some 1)).2.visual_selection = none ∧
    ∃ rest, (handle_chat (ι := Nat) genOk ⟨[], some ⟨"b.txt"⟩, none⟩
        { message := some "hi" } (some 1)).2.history
      = [] ++ userContent (contextMessage ⟨[], some ⟨"b.txt"⟩, none⟩ "hi") :: rest :=
  c3_context_prefix_persists genOk ⟨[], some ⟨"b.txt"⟩, none⟩
    { message := some "hi" } (some 1) "hi" rfl (by decide)

/-- C4: when the model-endpoint call raises, the chat handler returns the
error response for that one request, and the history afterwards equals its
pre-request value plus exactly the appended user turn: no model turn and no
partially constructed turn remains. -/
theorem c4_gen_failure_history_consistent {ι : Type} (gen : GenFun)
    (st : ServerState) (p : Params) (rid : Option ι) (m e : String)
    (hm : p.message = some m) (hne : m ≠ "")
    (hgen : gen (st.history ++ [userContent (contextMessage st m)]) = .error e) :
    handle_chat gen st p rid =
      (.error rid (-32603) e,
        { st with history := st.history ++ [userContent (contextMessage st m)] }) := by
  simp [handle_chat, hm, hne, hgen]

/-- Witness for C4 with a model endpoint that always raises. -/
theorem c4_gen_failure_witness :
    handle_chat (ι := Nat) genBoom initState { message := some "hi" } (some 7) =
      (.error (some 7) (-32603) "boom", ⟨[userContent "hi"], none, none⟩) := by
  exact c4_gen_failure_history_consistent genBoom initState
    { message := some "hi" } (some 7) "hi" "boom" rfl (by decide) rfl

/-- C5: a model response with zero candidates makes the chat handler return
the neutral no-response result, and the history afterwards is the old history
plus exactly the user turn: one more user turn, zero additional model turns. -/
theorem c5_zero_candidates_no_model_turn {ι : Type} (gen : GenFun)
    (st : ServerState) (p : Params) (rid : Option ι) (m : String)
    (hm : p.message = some m) (hne : m ≠ "")
    (hgen : gen (st.history ++ [userContent (contextMessage st m)]) = .ok ⟨[]⟩) :
    handle_chat gen st p rid =
      (.result rid .noResponse,
        { st with history := st.history ++ [userContent (contextMessage st m)] }) ∧
    countRole "user" (handle_chat gen st p rid).2.history
        = countRole "user" st.history + 1 ∧
    countRole "model" (handle_chat gen st p rid).2.history
        = countRole "model" st.history := by
  have h1 : handle_chat gen st p rid =
      (.result rid .noResponse,
        { st with history := st.history ++ [userContent (contextMessage st m)] }) := by
    simp [handle_chat, hm, hne, hgen]
  refine ⟨h1, ?_, ?_⟩ <;> rw [h1] <;>
    simp [countRole, userContent, List.filter_append]

/-- Witness for C5 with a model endpoint that returns no candidates. -/
theorem c5_zero_candidates_witness :
    (handle_chat (ι := Nat) (fun _ => .ok ⟨[]⟩) initState
        { message := some "hi" } (some 5) =
      (.result (some 5) .noResponse, ⟨[userContent "hi"], none, none⟩) ∧
     countRole "user" (handle_chat (ι := Nat) (fun _ => .ok ⟨[]⟩) initState
        { message := some "hi" } (some 5)).2.history = countRole "user" [] + 1 ∧
     countRole "model" (handle_chat (ι := Nat) (fun _ => .ok ⟨[]⟩) initState
        { message := some "hi" } (some 5)).2.history = countRole "model" []) := by
  exact c5_zero_candidates_no_model_turn (fun _ => .ok ⟨[]⟩) initState
    { message := some "hi" } (some 5) "hi" rfl (by decide) rfl

/-- C6: a chat request whose params mapping lacks the `message` field gets
the invalid-params error with code -32602, and the whole server state -
history included - is left exactly as it was. -/
theorem c6_missing_message_rejected {ι : Type} (gen : GenFun)
    (st : ServerState) (p : Params) (rid : Option ι)
    (hp : p.message = none) :
    handle_request gen st ⟨some "chat", some p, rid⟩ =
      (.error rid (-32602) "Message is required", st) := by
  simp [handle_request, handle_chat, hp]

/-- Witness for C6 on an empty params mapping. -/
theorem c6_missing_message_witness :
    handle_request (ι := Nat) genOk initState ⟨some "chat", some {}, some 3⟩ =
      (.error (some 3) (-32602) "Message is required", initState) := by
  exact c6_missing_message_rejected genOk initState {} (some 3) rfl

/-- The chat handler always echoes the request identifier. -/
theorem respId_handle_chat {ι : Type} (gen : GenFun) (st : ServerState)
    (p : Params) (rid : Option ι) :
    respId (handle_chat gen st p rid).1 = rid := by
  unfold handle_chat
  dsimp only
  repeat' split
  all_goals rfl

/-- C7: for every request object, whatever its method and identifier, the
response carries an identifier equal to the requests; an absent identifier
(`none`, Python `None`) is echoed as `none`, emitted as JSON `null`. -/
theorem c7_response_id_echo {ι : Type} (gen : GenFun) (st : ServerState)
    (req : Request ι) :
    respId (handle_request gen st req).1 = req.id := by
  unfold handle_request handle_ask handle_explain handle_fix handle_refactor
    handle_set_context handle_get_history handle_clear_history
  dsimp only
  repeat' split
  all_goals first
    | rfl
    | apply respId_handle_chat

/-- C8: handling `clear_history` and then `get_history` yields a history
result with the empty turn sequence, from every server state and for every
params and identifiers. -/
theorem c8_clear_then_get_empty {ι : Type} (gen : GenFun) (st : ServerState)
    (p q : Option Params) (id1 id2 : Option ι) :
    (handle_request gen
        (handle_request gen st ⟨some "clear_history", p, id1⟩).2
        ⟨some "get_history", q, id2⟩).1
      = .result id2 (.historyResult []) := by
  rfl

/-- C9: an `ask` request is handled exactly as a `chat` request with the same
params and identifier: same response object, same effect on the history and
the stored context. -/
theorem c9_ask_is_chat {ι : Type} (gen : GenFun) (st : ServerState)
    (p : Option Params) (rid : Option ι) :
    handle_request gen st ⟨some "ask", p, rid⟩ =
      handle_request gen st ⟨some "chat", p, rid⟩ := by
  rfl

/-- C10: a chat request whose `message` field is present but equal to the
empty string is treated exactly as if the field were missing: the
invalid-params error with code -32602, an untouched server state, and the
very same outcome as the request without the field. -/
theorem c10_empty_message_like_missing {ι : Type} (gen : GenFun)
    (st : ServerState) (p : Params) (rid : Option ι)
    (hp : p.message = some "") :
    handle_chat gen st p rid = (.error rid (-32602) "Message is required", st) ∧
    handle_chat gen st p rid = handle_chat gen st { p with message := none } rid := by
  constructor
  · simp [handle_chat, hp]
  · simp [handle_chat, hp]

/-- Witness for C10 on a params mapping carrying an empty message. -/
theorem c10_empty_message_witness :
    (handle_chat (ι := Nat) genOk initState { message := some "" } (some 4) =
      (.error (some 4) (-32602) "Message is required", initState) ∧
     handle_chat (ι := Nat) genOk initState { message := some "" } (some 4) =
      handle_chat (ι := Nat) genOk initState { message := none } (some 4)) := by
  exact c10_empty_message_like_missing genOk initState
    { message := some "" } (some 4) rfl
